import Mathlib

/-!
Verification development for the Animatronics time-of-flight (TOF) pipeline
(`TPP_TOF.cpp`).  The source turns raw per-cell range/status samples from an
8x8 VL53L5CX depth sensor into a single debounced "point of interest":
calibration, per-cell classification against the calibration, 3x3
neighborhood validation, nearest-cell selection, and a multi-frame debounce
filter.  Every definition below is a direct shallow embedding of the
corresponding C++ function; sensor I/O is modelled by passing the raw frame
(or `none` when no new frame is ready) as an argument.
-/

/-- Noise range in measured data: anything within plus or minus 50 of the
calibration is noise (`NOISE_RANGE` in the source). -/
def NOISE_RANGE : Int := 50

/-- Maximum calibration distance in mm; anything greater is set to 2000
(`MAX_CALIBRATION` in the source). -/
def MAX_CALIBRATION : Int := 2000

/-- Number of subsequent frames needed to consider a hit good
(`FRAMES_FOR_GOOD_HIT` in the source). -/
def FRAMES_FOR_GOOD_HIT : Int := 2

/-- Grid width: the sensor is configured for the 8x8 resolution
(`setResolution(64)`, `imageWidth = sqrt(imageResolution)`). -/
def imageWidth : Nat := 8

/-- Number of cells in a frame (`imageResolution` in the source). -/
def imageResolution : Nat := 64

/-- One raw sensor frame: per-cell distance in mm (non-negative) and the
per-cell target status code, indexed by cell = y*8 + x. -/
structure RawFrame where
  distance_mm : Nat → Nat
  target_status : Nat → Nat

/-- Per-cell post-processing of the calibration frame (`initTOF`, the loop
filling `calibration[]`): a raw reading of 0 or above `MAX_CALIBRATION` is
replaced by `MAX_CALIBRATION`; everything else is kept. -/
def calibrateCell (raw : Int) : Int :=
  if raw = 0 ∨ raw > MAX_CALIBRATION then MAX_CALIBRATION else raw

/-- The calibration frame produced by `initTOF` from the last sensor frame
of the convergence loop. -/
def initCalibration (frame : RawFrame) : Nat → Int :=
  fun i => calibrateCell (frame.distance_mm i)

/-- Per-cell classification, the body of the loop in
`TPP_TOF::processMeasuredData`.  Returns -1 for a bad status code, -2 for
out-of-range data, -3 for background, and the measured distance itself for a
valid foreground reading.  (The source stores the result through an
`(int16_t)` cast; in that branch the value lies in (0, 2000], so the cast is
the identity.) -/
def classifyCell (statusCode : Nat) (measuredData : Nat) (calib : Int) : Int :=
  if statusCode ≠ 5 ∧ statusCode ≠ 9 ∧ statusCode ≠ 6 then
    -1
  else if measuredData = 0 ∨ (measuredData : Int) > MAX_CALIBRATION then
    -2
  else
    let deltaDist : Int := |(measuredData : Int) - calib|
    if deltaDist ≤ NOISE_RANGE ∨ (measuredData : Int) > calib then
      -3
    else
      (measuredData : Int)

/-- `TPP_TOF::processMeasuredData`: classify every cell of a raw frame
against the calibration frame. -/
def processMeasuredData (frame : RawFrame) (calibration : Nat → Int) : Nat → Int :=
  fun i => classifyCell (frame.target_status i) (frame.distance_mm i) (calibration i)

/-- The nine (yIndex, xIndex) offsets of the 3x3 neighborhood, in the
iteration order of the source's nested loops (yIndex outer, xIndex inner). -/
def neighborOffsets : List (Int × Int) :=
  [(-1, -1), (-1, 0), (-1, 1), (0, -1), (0, 0), (0, 1), (1, -1), (1, 0), (1, 1)]

/-- `TPP_TOF::scoreZone`: number of cells of the 3x3 neighborhood of
`location` (clipped at the grid edges) whose entry in `dataArray` is a valid
(positive) distance. -/
def scoreZone (location : Nat) (dataArray : Nat → Int) : Int :=
  let locYInit : Int := (location / imageWidth : Nat)
  let locXInit : Int := (location % imageWidth : Nat)
  neighborOffsets.foldl (fun score yx =>
    let locY := locYInit + yx.1
    let locX := locXInit + yx.2
    if 0 ≤ locX ∧ locX < 8 ∧ 0 ≤ locY ∧ locY < 8 then
      if dataArray (locY * 8 + locX).toNat > 0 then score + 1 else score
    else score) 0

/-- `TPP_TOF::avgdistZone`: if the cell itself holds a valid distance, the
(integer) average of the valid distances in its edge-clipped 3x3
neighborhood; otherwise the cell's own (non-positive) entry. -/
def avgdistZone (location : Nat) (distance : Nat → Int) : Int :=
  if distance location > 0 then
    let acc := neighborOffsets.foldl (fun (acc : Int × Int) yx =>
      let locY := ((location / imageWidth : Nat) : Int) + yx.1
      let locX := ((location % imageWidth : Nat) : Int) + yx.2
      if 0 ≤ locX ∧ locX < 8 ∧ 0 ≤ locY ∧ locY < 8 then
        if distance (locY * 8 + locX).toNat > 0 then
          (acc.1 + distance (locY * 8 + locX).toNat, acc.2 + 1)
        else acc
      else acc) (0, 0)
    acc.1 / acc.2
  else
    distance location

/-- `TPP_TOF::validate`: a zone is good enough for focus when its score is
at least `VALID_SCORE_MINIMUM` (3). -/
def validate (score : Int) : Bool :=
  let VALID_SCORE_MINIMUM : Int := 3
  if score ≥ VALID_SCORE_MINIMUM then true else false

/-- The `pointOfInterest` record handed to and mutated by `getPOI` and
`getPOITemporalFiltered`. -/
structure pointOfInterest where
  gotNewSensorData : Bool
  hasDetection : Bool
  x : Int
  y : Int
  distanceMM : Int
  detectedAtMS : Int
  calibrationDistMM : Int
  surroundingHits : Int
deriving DecidableEq, Repr

/-- The field resets `getPOI` performs unconditionally at its start
(`surroundingHits` is not reset by the source). -/
def initPOI (prev : pointOfInterest) : pointOfInterest :=
  { prev with
    gotNewSensorData := false
    hasDetection := false
    x := -255
    y := -255
    distanceMM := -1
    detectedAtMS := -1
    calibrationDistMM := -1 }

/-- The state of the POI record right after `getPOI` has read a new sensor
frame: `gotNewSensorData` is set and the running best distance starts at
`MAX_CALIBRATION + 1`. -/
def newDataPOI (prev : pointOfInterest) : pointOfInterest :=
  { initPOI prev with
    gotNewSensorData := true
    distanceMM := MAX_CALIBRATION + 1 }

/-- The body of `getPOI`'s scan loop for one cell `thisZone`: the cell
becomes the new point of interest when its adjusted distance is valid,
its zone score validates, it is closer than the calibration and the current
best, and the neighborhood average is above the noise range. -/
def poiStep (adjustedData calibration : Nat → Int) (now : Int)
    (pPOI : pointOfInterest) (thisZone : Nat) : pointOfInterest :=
  let avgDistThisZone := avgdistZone thisZone adjustedData
  let score := scoreZone thisZone adjustedData
  if adjustedData thisZone > 0 ∧ validate score = true ∧
      adjustedData thisZone < calibration thisZone ∧
      adjustedData thisZone < pPOI.distanceMM ∧
      avgDistThisZone > NOISE_RANGE then
    { pPOI with
      x := (thisZone % imageWidth : Nat)
      y := (thisZone / imageWidth : Nat)
      distanceMM := adjustedData thisZone
      detectedAtMS := now
      calibrationDistMM := calibration thisZone
      hasDetection := true
      surroundingHits := score }
  else pPOI

/-- `TPP_TOF::getPOI`: reset the POI record; when a new sensor frame is
available (`newData = some frame`), classify it and scan all 64 cells in
row-major order (y ascending, then x ascending; `thisZone = y*8+x` runs
0..63) for the closest qualifying cell.  `now` stands for `millis()`. -/
def getPOI (prev : pointOfInterest) (calibration : Nat → Int)
    (newData : Option RawFrame) (now : Int) : pointOfInterest :=
  match newData with
  | none => initPOI prev
  | some frame =>
    let adjustedData := processMeasuredData frame calibration
    (List.range imageResolution).foldl (poiStep adjustedData calibration now)
      (newDataPOI prev)

/-- The static local state of `getPOITemporalFiltered`. -/
structure DebounceState where
  waitingFirstDetection : Bool
  sequentialFramesWithHit : Int
  currentX : Int
  currentY : Int
  suppressedX : Int
  suppressedY : Int
deriving DecidableEq, Repr

/-- Initial values of the static locals of `getPOITemporalFiltered`. -/
def initialDebounceState : DebounceState :=
  { waitingFirstDetection := true
    sequentialFramesWithHit := 0
    currentX := -1
    currentY := -1
    suppressedX := -1
    suppressedY := -1 }

/-- The debounce logic of `TPP_TOF::getPOITemporalFiltered` after the call
to `getPOI`, acting on the static state and the freshly produced POI.  Note
that the source computes `spatialDistX` and `spatialDistY` as the constant
0 (the actual difference computation is commented out there), so the
re-anchor branch of the spatial-jitter test is unreachable. -/
def debounceStep (s : DebounceState) (pPOI : pointOfInterest) :
    DebounceState × pointOfInterest :=
  if pPOI.gotNewSensorData = false then
    (s, pPOI)
  else if pPOI.hasDetection = false then
    ({ s with waitingFirstDetection := true }, pPOI)
  else
    let s1 :=
      if s.waitingFirstDetection then
        { s with
          waitingFirstDetection := false
          sequentialFramesWithHit := 0
          currentX := pPOI.x
          currentY := pPOI.y
          suppressedX := -1
          suppressedY := -1 }
      else s
    let spatialDistX : Int := 0
    let spatialDistY : Int := 0
    let s2 :=
      if spatialDistX < 2 ∧ spatialDistY < 2 then
        { s1 with sequentialFramesWithHit := s1.sequentialFramesWithHit + 1 }
      else
        { s1 with
          sequentialFramesWithHit := 1
          currentX := pPOI.x
          currentY := pPOI.y }
    if s2.sequentialFramesWithHit ≥ FRAMES_FOR_GOOD_HIT then
      (s2, pPOI)
    else
      let s3 :=
        if s2.suppressedX ≠ pPOI.x ∧ s2.suppressedY ≠ pPOI.y then
          { s2 with suppressedX := pPOI.x, suppressedY := pPOI.y }
        else s2
      (s3, { pPOI with hasDetection := false })

/-- `TPP_TOF::getPOITemporalFiltered`: get a fresh POI from `getPOI`, then
run the debounce logic on it (returning early, with state untouched, when no
new sensor data arrived). -/
def getPOITemporalFiltered (s : DebounceState) (prev : pointOfInterest)
    (calibration : Nat → Int) (newData : Option RawFrame) (now : Int) :
    DebounceState × pointOfInterest :=
  debounceStep s (getPOI prev calibration newData now)

/-- A cell qualifies for selection in `getPOI`'s scan when all the per-cell
conditions of the loop hold (everything except the comparison with the
running best distance). -/
def qualifies (adjustedData calibration : Nat → Int) (z : Nat) : Prop :=
  adjustedData z > 0 ∧ validate (scoreZone z adjustedData) = true ∧
    adjustedData z < calibration z ∧ avgdistZone z adjustedData > NOISE_RANGE

instance (adjustedData calibration : Nat → Int) (z : Nat) :
    Decidable (qualifies adjustedData calibration z) := by
  unfold qualifies; infer_instance

/-! ## Helper lemmas -/

theorem validate_iff (score : Int) : validate score = true ↔ 3 ≤ score := by
  show (if score ≥ (3 : Int) then true else false) = true ↔ 3 ≤ score
  split_ifs with h
  · simpa using h
  · simpa using h

/-- A positive classification result is exactly the measured distance, which
is then at least 1 mm, at most `MAX_CALIBRATION`, and strictly below the
calibration value minus the noise range. -/
theorem classifyCell_pos (s d : Nat) (c : Int) (h : classifyCell s d c > 0) :
    classifyCell s d c = (d : Int) ∧ 1 ≤ d ∧ (d : Int) ≤ MAX_CALIBRATION ∧
      (d : Int) < c - NOISE_RANGE := by
  unfold classifyCell at h ⊢
  simp only [NOISE_RANGE, MAX_CALIBRATION] at h ⊢
  split_ifs at h ⊢ with h1 h2 h3
  · omega
  · omega
  · omega
  · push_neg at h2 h3
    rcases h3 with ⟨habs, hle⟩
    rcases abs_cases ((d : Int) - c) with ⟨he, _⟩ | ⟨he, _⟩ <;>
      rw [he] at habs <;> exact ⟨rfl, by omega, by omega, by omega⟩

/-- Positive cells of a classified frame are bounded by `MAX_CALIBRATION`. -/
theorem processMeasuredData_pos_le (frame : RawFrame) (calibration : Nat → Int)
    (z : Nat) (h : processMeasuredData frame calibration z > 0) :
    processMeasuredData frame calibration z ≤ MAX_CALIBRATION := by
  have := classifyCell_pos (frame.target_status z) (frame.distance_mm z)
    (calibration z) h
  unfold processMeasuredData at h ⊢
  omega

/-- Proof device: the value of the scan's POI record right after cell `w`
has become the running best. -/
def winUpdate (prev : pointOfInterest) (adjustedData calibration : Nat → Int)
    (now : Int) (w : Nat) : pointOfInterest :=
  { newDataPOI prev with
    x := (w % imageWidth : Nat)
    y := (w / imageWidth : Nat)
    distanceMM := adjustedData w
    detectedAtMS := now
    calibrationDistMM := calibration w
    hasDetection := true
    surroundingHits := scoreZone w adjustedData }

theorem winUpdate_distanceMM (prev : pointOfInterest)
    (adjustedData calibration : Nat → Int) (now : Int) (w : Nat) :
    (winUpdate prev adjustedData calibration now w).distanceMM = adjustedData w := rfl

theorem newDataPOI_distanceMM (prev : pointOfInterest) :
    (newDataPOI prev).distanceMM = MAX_CALIBRATION + 1 := rfl

theorem winUpdate_x (prev : pointOfInterest)
    (adjustedData calibration : Nat → Int) (now : Int) (w : Nat) :
    (winUpdate prev adjustedData calibration now w).x =
      ((w % imageWidth : Nat) : Int) := rfl

theorem winUpdate_y (prev : pointOfInterest)
    (adjustedData calibration : Nat → Int) (now : Int) (w : Nat) :
    (winUpdate prev adjustedData calibration now w).y =
      ((w / imageWidth : Nat) : Int) := rfl

theorem winUpdate_surroundingHits (prev : pointOfInterest)
    (adjustedData calibration : Nat → Int) (now : Int) (w : Nat) :
    (winUpdate prev adjustedData calibration now w).surroundingHits =
      scoreZone w adjustedData := rfl

theorem poiStep_skip (adj cal : Nat → Int) (now : Int) (p : pointOfInterest)
    (z : Nat) (h : ¬ qualifies adj cal z ∨ ¬ adj z < p.distanceMM) :
    poiStep adj cal now p z = p := by
  simp only [poiStep]
  rw [if_neg]
  rintro ⟨h1, h2, h3, h4, h5⟩
  rcases h with h | h
  · exact h ⟨h1, h2, h3, h5⟩
  · exact h h4

theorem poiStep_fire (adj cal : Nat → Int) (now : Int) (p : pointOfInterest)
    (z : Nat) (hq : qualifies adj cal z) (hlt : adj z < p.distanceMM) :
    poiStep adj cal now p z =
      { p with
        x := (z % imageWidth : Nat)
        y := (z / imageWidth : Nat)
        distanceMM := adj z
        detectedAtMS := now
        calibrationDistMM := cal z
        hasDetection := true
        surroundingHits := scoreZone z adj } := by
  obtain ⟨h1, h2, h3, h4⟩ := hq
  simp only [poiStep]
  rw [if_pos ⟨h1, h2, h3, hlt, h4⟩]

/-- Characterization of `getPOI`'s scan over the first `n` cells: either no
cell so far qualifies and the record is untouched, or the record holds the
first cell `w` attaining the minimum adjusted distance among the qualifying
cells scanned so far. -/
theorem poiScan_inv (adj cal : Nat → Int) (prev : pointOfInterest) (now : Int)
    (hbound : ∀ z, adj z > 0 → adj z ≤ MAX_CALIBRATION) (n : Nat) :
    ((List.range n).foldl (poiStep adj cal now) (newDataPOI prev) = newDataPOI prev ∧
      ∀ z, z < n → ¬ qualifies adj cal z) ∨
    (∃ w, w < n ∧ qualifies adj cal w ∧
      (List.range n).foldl (poiStep adj cal now) (newDataPOI prev) =
        winUpdate prev adj cal now w ∧
      (∀ z, z < n → qualifies adj cal z → adj w ≤ adj z) ∧
      (∀ z, z < w → qualifies adj cal z → adj w < adj z)) := by
  induction n with
  | zero => exact Or.inl ⟨rfl, fun z hz => absurd hz (Nat.not_lt_zero z)⟩
  | succ n ih =>
    rw [List.range_succ, List.foldl_append, List.foldl_cons, List.foldl_nil]
    rcases ih with ⟨hp, hnone⟩ | ⟨w, hwn, hqw, hp, hmin, hfirst⟩
    · rw [hp]
      by_cases hq : qualifies adj cal n
      · refine Or.inr ⟨n, Nat.lt_succ_self n, hq, ?_, ?_, ?_⟩
        · have hlt : adj n < (newDataPOI prev).distanceMM := by
            rw [newDataPOI_distanceMM]
            have := hbound n hq.1
            omega
          rw [poiStep_fire adj cal now _ n hq hlt]
          rfl
        · intro z hz hqz
          rcases Nat.lt_succ_iff_lt_or_eq.mp hz with h | h
          · exact absurd hqz (hnone z h)
          · subst h; exact le_refl _
        · intro z hz hqz
          exact absurd hqz (hnone z hz)
      · refine Or.inl ⟨poiStep_skip adj cal now _ n (Or.inl hq), ?_⟩
        intro z hz
        rcases Nat.lt_succ_iff_lt_or_eq.mp hz with h | h
        · exact hnone z h
        · subst h; exact hq
    · rw [hp]
      by_cases hq : qualifies adj cal n
      · by_cases hlt : adj n < adj w
        · refine Or.inr ⟨n, Nat.lt_succ_self n, hq, ?_, ?_, ?_⟩
          · have hlt' : adj n < (winUpdate prev adj cal now w).distanceMM := by
              rw [winUpdate_distanceMM]; exact hlt
            rw [poiStep_fire adj cal now _ n hq hlt']
            rfl
          · intro z hz hqz
            rcases Nat.lt_succ_iff_lt_or_eq.mp hz with h | h
            · exact le_trans hlt.le (hmin z h hqz)
            · subst h; exact le_refl _
          · intro z hz hqz
            exact lt_of_lt_of_le hlt (hmin z hz hqz)
        · refine Or.inr ⟨w, Nat.lt_succ_of_lt hwn, hqw, ?_, ?_, hfirst⟩
          · refine poiStep_skip adj cal now _ n (Or.inr ?_)
            rw [winUpdate_distanceMM]
            exact hlt
          · intro z hz hqz
            rcases Nat.lt_succ_iff_lt_or_eq.mp hz with h | h
            · exact hmin z h hqz
            · subst h; omega
      · refine Or.inr ⟨w, Nat.lt_succ_of_lt hwn, hqw,
          poiStep_skip adj cal now _ n (Or.inl hq), ?_, hfirst⟩
        intro z hz hqz
        rcases Nat.lt_succ_iff_lt_or_eq.mp hz with h | h
        · exact hmin z h hqz
        · subst h; exact absurd hqz hq

/-- `poiScan_inv` specialized to `getPOI` on a fresh frame. -/
theorem getPOI_some_spec (prev : pointOfInterest) (frame : RawFrame)
    (calibration : Nat → Int) (now : Int) :
    (getPOI prev calibration (some frame) now = newDataPOI prev ∧
      ∀ z, z < 64 →
        ¬ qualifies (processMeasuredData frame calibration) calibration z) ∨
    (∃ w, w < 64 ∧
      qualifies (processMeasuredData frame calibration) calibration w ∧
      getPOI prev calibration (some frame) now =
        winUpdate prev (processMeasuredData frame calibration) calibration now w ∧
      (∀ z, z < 64 → qualifies (processMeasuredData frame calibration) calibration z →
        processMeasuredData frame calibration w ≤ processMeasuredData frame calibration z) ∧
      (∀ z, z < w → qualifies (processMeasuredData frame calibration) calibration z →
        processMeasuredData frame calibration w < processMeasuredData frame calibration z)) := by
  exact poiScan_inv (processMeasuredData frame calibration) calibration prev now
    (processMeasuredData_pos_le frame calibration) 64

/-! ## Classification tags (data model of the specification) -/

/-- The four classification tags of the specification's data model. -/
inductive Classification where
  | BadStatus
  | OutOfRange
  | Background
  | Valid (distance : Nat)
deriving DecidableEq, Repr

/-- The specification's per-cell classification, written from its words:
bad status codes first, then the range check, then the background test,
otherwise a valid foreground distance. -/
def specClassify (status : Nat) (distance : Nat) (calib : Int) : Classification :=
  if ¬ (status = 5 ∨ status = 6 ∨ status = 9) then .BadStatus
  else if distance = 0 ∨ (distance : Int) > 2000 then .OutOfRange
  else if |(distance : Int) - calib| ≤ 50 ∨ (distance : Int) > calib then .Background
  else .Valid distance

/-- Reading of the classifier's integer encoding as a tag: -1 is BadStatus,
-2 is OutOfRange, -3 is Background, and a positive value is a valid
distance. -/
def toTag (v : Int) : Classification :=
  if v = -1 then .BadStatus
  else if v = -2 then .OutOfRange
  else if v = -3 then .Background
  else .Valid v.toNat

/-- C1: per-cell classification follows exactly the specified order — bad
status unless the code is in {5, 6, 9}; else out of range for a distance of
0 or above `MAX_CALIBRATION`; else background when within `NOISE_RANGE` of
the calibration or beyond it; otherwise valid with the measured distance —
and, being a total function into the four tags, it is deterministic and
yields exactly one tag for every status/distance value. -/
theorem claimC1_classify_refines_spec (status distance : Nat) (calib : Int) :
    toTag (classifyCell status distance calib) = specClassify status distance calib := by
  unfold classifyCell specClassify toTag
  simp only [NOISE_RANGE, MAX_CALIBRATION]
  split_ifs <;>
    first
      | rfl
      | (exfalso; omega)
      | (congr 1; omega)
      | tauto

/-- Every cell of the frame echoes the calibration exactly: good status,
distance equal to the calibration value, calibration within
[1, MAX_CALIBRATION]. -/
def isCalibrationEcho (frame : RawFrame) (calibration : Nat → Int) : Prop :=
  ∀ z, z < 64 →
    (frame.target_status z = 5 ∨ frame.target_status z = 6 ∨ frame.target_status z = 9) ∧
    (frame.distance_mm z : Int) = calibration z ∧
    1 ≤ calibration z ∧ calibration z ≤ MAX_CALIBRATION

instance (frame : RawFrame) (calibration : Nat → Int) :
    Decidable (isCalibrationEcho frame calibration) := by
  unfold isCalibrationEcho; infer_instance

/-- Every cell of the classified frame is background (-3). -/
def allBackground (frame : RawFrame) (calibration : Nat → Int) : Prop :=
  ∀ z, z < 64 → processMeasuredData frame calibration z = -3

instance (frame : RawFrame) (calibration : Nat → Int) :
    Decidable (allBackground frame calibration) := by
  unfold allBackground; infer_instance

/-- C8: feeding a raw frame that reads exactly the calibration values (all
in [1, MAX_CALIBRATION], good status everywhere) back through the
classifier yields Background (-3) for every cell; no cell is classified
Valid (equal distance counts as not closer). -/
theorem claimC8_roundtrip_background (frame : RawFrame) (calibration : Nat → Int)
    (h : isCalibrationEcho frame calibration) :
    allBackground frame calibration := by
  intro z hz
  obtain ⟨hs, hd, h1, h2⟩ := h z hz
  unfold processMeasuredData classifyCell
  simp only [MAX_CALIBRATION, NOISE_RANGE] at *
  split_ifs with g1 g2 g3
  · omega
  · omega
  · rfl
  · exfalso
    apply g3
    left
    rw [hd, sub_self, abs_zero]
    omega

def calib1000 : Nat → Int := fun _ => 1000

def frameEcho1000 : RawFrame := ⟨fun _ => 1000, fun _ => 5⟩

set_option maxRecDepth 100000 in
/-- Witness for C8 at a concrete calibration-echo frame. -/
theorem claimC8_witness :
    isCalibrationEcho frameEcho1000 calib1000 ∧ allBackground frameEcho1000 calib1000 :=
  ⟨by decide, claimC8_roundtrip_background frameEcho1000 calib1000 (by decide)⟩

/-- C9: after calibration, every cell lies in [1, MAX_CALIBRATION]: a raw
reading of 0 or above MAX_CALIBRATION is clamped to MAX_CALIBRATION, and
every other reading passes through unchanged. -/
theorem claimC9_calibration_bounds (frame : RawFrame) (i : Nat) :
    (1 ≤ initCalibration frame i ∧ initCalibration frame i ≤ MAX_CALIBRATION) ∧
    ((frame.distance_mm i = 0 ∨ (frame.distance_mm i : Int) > MAX_CALIBRATION) →
      initCalibration frame i = MAX_CALIBRATION) ∧
    (¬ (frame.distance_mm i = 0 ∨ (frame.distance_mm i : Int) > MAX_CALIBRATION) →
      initCalibration frame i = frame.distance_mm i) := by
  unfold initCalibration calibrateCell
  simp only [MAX_CALIBRATION]
  split_ifs with h
  · exact ⟨⟨by omega, by omega⟩, fun _ => rfl, fun hn => by omega⟩
  · exact ⟨⟨by omega, by omega⟩, fun hc => by omega, fun _ => rfl⟩

/-- Witness for C9 at two concrete readings (a zero reading clamps; an
in-range reading passes through). -/
theorem claimC9_witness :
    initCalibration ⟨fun _ => 0, fun _ => 5⟩ 0 = MAX_CALIBRATION ∧
    initCalibration frameEcho1000 0 = 1000 := by
  refine ⟨(claimC9_calibration_bounds ⟨fun _ => 0, fun _ => 5⟩ 0).2.1 ?_,
    (claimC9_calibration_bounds frameEcho1000 0).2.2 ?_⟩ <;> decide

/-- C10: a cell classified Valid carries exactly the measured distance,
which is at least 1 mm and strictly below the calibration minus the noise
range; in particular it is strictly below the calibration value, so the
selector's separate `distance < calibration` test never rejects a Valid
cell on its own. -/
theorem claimC10_valid_below_calibration (frame : RawFrame)
    (calibration : Nat → Int) (z : Nat)
    (h : processMeasuredData frame calibration z > 0) :
    processMeasuredData frame calibration z = (frame.distance_mm z : Int) ∧
    (frame.distance_mm z : Int) < calibration z - NOISE_RANGE ∧
    1 ≤ frame.distance_mm z ∧
    (frame.distance_mm z : Int) < calibration z ∧
    processMeasuredData frame calibration z < calibration z := by
  have hc := classifyCell_pos (frame.target_status z) (frame.distance_mm z)
    (calibration z) h
  unfold processMeasuredData at h ⊢
  simp only [NOISE_RANGE, MAX_CALIBRATION] at hc ⊢
  omega

def frameAll400 : RawFrame := ⟨fun _ => 400, fun _ => 5⟩

/-- Witness for C10 at a concrete valid cell (400 mm against a 1000 mm
calibration). -/
theorem claimC10_witness :
    processMeasuredData frameAll400 calib1000 0 > 0 ∧
    (processMeasuredData frameAll400 calib1000 0 = (frameAll400.distance_mm 0 : Int) ∧
      (frameAll400.distance_mm 0 : Int) < calib1000 0 - NOISE_RANGE ∧
      1 ≤ frameAll400.distance_mm 0 ∧
      (frameAll400.distance_mm 0 : Int) < calib1000 0 ∧
      processMeasuredData frameAll400 calib1000 0 < calib1000 0) :=
  ⟨by decide, claimC10_valid_below_calibration frameAll400 calib1000 0 (by decide)⟩

/-- No cell of the classified frame satisfies all of the selector's
per-cell qualification conditions. -/
def noCellQualifies (frame : RawFrame) (calibration : Nat → Int) : Prop :=
  ∀ z, z < 64 → ¬ qualifies (processMeasuredData frame calibration) calibration z

instance (frame : RawFrame) (calibration : Nat → Int) :
    Decidable (noCellQualifies frame calibration) := by
  unfold noCellQualifies; infer_instance

/-- C2 (amended): on a new frame in which no cell qualifies, `getPOI`
reports no detection with sentinel coordinates, but `distanceMM` is left at
its scan-initial value `MAX_CALIBRATION + 1`, not at the -1 sentinel. -/
theorem claimC2_no_qualifier_amended (prev : pointOfInterest)
    (calibration : Nat → Int) (frame : RawFrame) (now : Int)
    (h : noCellQualifies frame calibration) :
    (getPOI prev calibration (some frame) now).hasDetection = false ∧
    (getPOI prev calibration (some frame) now).x = -255 ∧
    (getPOI prev calibration (some frame) now).y = -255 ∧
    (getPOI prev calibration (some frame) now).distanceMM = MAX_CALIBRATION + 1 := by
  rcases getPOI_some_spec prev frame calibration now with ⟨hp, _⟩ | ⟨w, hw, hqw, _⟩
  · rw [hp]
    exact ⟨rfl, rfl, rfl, rfl⟩
  · exact absurd hqw (h w hw)

def frameAllBadStatus : RawFrame := ⟨fun _ => 400, fun _ => 0⟩

def poiZero : pointOfInterest :=
  { gotNewSensorData := false, hasDetection := false, x := -255, y := -255,
    distanceMM := -1, detectedAtMS := -1, calibrationDistMM := -1, surroundingHits := 0 }

set_option maxRecDepth 1000000 in
/-- Counterexample to C2 as stated: a frame whose every cell has a bad
status qualifies nowhere, yet `getPOI` returns `distanceMM = 2001`
(`MAX_CALIBRATION + 1`), not the claimed -1 sentinel. -/
theorem claimC2_counterexample :
    noCellQualifies frameAllBadStatus calib1000 ∧
    (getPOI poiZero calib1000 (some frameAllBadStatus) 0).hasDetection = false ∧
    (getPOI poiZero calib1000 (some frameAllBadStatus) 0).distanceMM = 2001 := by
  refine ⟨by decide, by decide, by decide⟩

set_option maxRecDepth 1000000 in
/-- Witness for the amended C2 at the all-bad-status frame. -/
theorem claimC2_witness :
    noCellQualifies frameAllBadStatus calib1000 ∧
    ((getPOI poiZero calib1000 (some frameAllBadStatus) 5).hasDetection = false ∧
      (getPOI poiZero calib1000 (some frameAllBadStatus) 5).x = -255 ∧
      (getPOI poiZero calib1000 (some frameAllBadStatus) 5).y = -255 ∧
      (getPOI poiZero calib1000 (some frameAllBadStatus) 5).distanceMM = MAX_CALIBRATION + 1) :=
  ⟨by decide, claimC2_no_qualifier_amended poiZero calib1000 frameAllBadStatus 5 (by decide)⟩

/-- C5: whenever `getPOI` reports a detection, the selected cell's
edge-clipped 3x3 support score is at least 3 (`VALID_SCORE_MINIMUM`), and
that score is what `surroundingHits` records; `getPOI` never selects a cell
with support below 3. -/
theorem claimC5_detection_support (prev : pointOfInterest) (frame : RawFrame)
    (calibration : Nat → Int) (now : Int)
    (h : (getPOI prev calibration (some frame) now).hasDetection = true) :
    3 ≤ scoreZone
        (((getPOI prev calibration (some frame) now).y * 8 +
          (getPOI prev calibration (some frame) now).x).toNat)
        (processMeasuredData frame calibration) ∧
    (getPOI prev calibration (some frame) now).surroundingHits =
      scoreZone
        (((getPOI prev calibration (some frame) now).y * 8 +
          (getPOI prev calibration (some frame) now).x).toNat)
        (processMeasuredData frame calibration) := by
  rcases getPOI_some_spec prev frame calibration now with ⟨hp, _⟩ | ⟨w, hw, hqw, hp, _⟩
  · rw [hp] at h
    simp [newDataPOI, initPOI] at h
  · rw [hp]
    have hcell :
        (((w / imageWidth : Nat) : Int) * 8 + ((w % imageWidth : Nat) : Int)).toNat = w := by
      unfold imageWidth
      omega
    rw [winUpdate_y, winUpdate_x, winUpdate_surroundingHits, hcell]
    exact ⟨(validate_iff _).mp hqw.2.1, rfl⟩

set_option maxRecDepth 1000000 in
/-- Witness for C5: a frame with a detection, whose selected cell's support
meets the bound. -/
theorem claimC5_witness :
    (getPOI poiZero calib1000 (some frameAll400) 2).hasDetection = true ∧
    (3 ≤ scoreZone
        (((getPOI poiZero calib1000 (some frameAll400) 2).y * 8 +
          (getPOI poiZero calib1000 (some frameAll400) 2).x).toNat)
        (processMeasuredData frameAll400 calib1000) ∧
      (getPOI poiZero calib1000 (some frameAll400) 2).surroundingHits =
        scoreZone
          (((getPOI poiZero calib1000 (some frameAll400) 2).y * 8 +
            (getPOI poiZero calib1000 (some frameAll400) 2).x).toNat)
          (processMeasuredData frameAll400 calib1000)) :=
  ⟨by decide, claimC5_detection_support poiZero frameAll400 calib1000 2 (by decide)⟩

/-- C6: when two qualifying cells tie at the frame's smallest qualifying
distance, `getPOI` returns the one encountered first in the row-major scan
(replacing the running best requires a strictly smaller distance): if `z1`
precedes `z2`, both qualify with equal adjusted distance, that distance is
minimal among qualifying cells, and no earlier qualifying cell attains it,
then the detection is at `z1`, not `z2`. -/
theorem claimC6_tie_first_in_scan_order (prev : pointOfInterest)
    (frame : RawFrame) (calibration : Nat → Int) (now : Int) (z1 z2 : Nat)
    (h12 : z1 < z2) (hz2 : z2 < 64)
    (hq1 : qualifies (processMeasuredData frame calibration) calibration z1)
    (_hq2 : qualifies (processMeasuredData frame calibration) calibration z2)
    (_heq : processMeasuredData frame calibration z1 =
      processMeasuredData frame calibration z2)
    (hmin : ∀ z, z < 64 →
      qualifies (processMeasuredData frame calibration) calibration z →
      processMeasuredData frame calibration z1 ≤ processMeasuredData frame calibration z)
    (hfst : ∀ z, z < z1 →
      qualifies (processMeasuredData frame calibration) calibration z →
      processMeasuredData frame calibration z1 < processMeasuredData frame calibration z) :
    (getPOI prev calibration (some frame) now).hasDetection = true ∧
    (getPOI prev calibration (some frame) now).x = ((z1 % imageWidth : Nat) : Int) ∧
    (getPOI prev calibration (some frame) now).y = ((z1 / imageWidth : Nat) : Int) ∧
    (getPOI prev calibration (some frame) now).distanceMM =
      processMeasuredData frame calibration z1 := by
  have hz1 : z1 < 64 := lt_trans h12 hz2
  rcases getPOI_some_spec prev frame calibration now with ⟨_, hnone⟩ | ⟨w, hw, hqw, hp, hmin2, hfst2⟩
  · exact absurd hq1 (hnone z1 hz1)
  · have hle1 : processMeasuredData frame calibration z1 ≤
        processMeasuredData frame calibration w := hmin w hw hqw
    have hle2 : processMeasuredData frame calibration w ≤
        processMeasuredData frame calibration z1 := hmin2 z1 hz1 hq1
    have hwz1 : w = z1 := by
      rcases lt_trichotomy w z1 with hlt | heqw | hgt
      · have := hfst w hlt hqw
        omega
      · exact heqw
      · have := hfst2 z1 hgt hq1
        omega
    subst hwz1
    rw [hp]
    exact ⟨rfl, rfl, rfl, rfl⟩

set_option maxRecDepth 1000000 in
/-- Witness for C6: on the all-400 frame every cell qualifies with the same
distance, and the detection lands on cell 0, the first in scan order. -/
theorem claimC6_witness :
    qualifies (processMeasuredData frameAll400 calib1000) calib1000 0 ∧
    qualifies (processMeasuredData frameAll400 calib1000) calib1000 1 ∧
    ((getPOI poiZero calib1000 (some frameAll400) 3).hasDetection = true ∧
      (getPOI poiZero calib1000 (some frameAll400) 3).x = ((0 % imageWidth : Nat) : Int) ∧
      (getPOI poiZero calib1000 (some frameAll400) 3).y = ((0 / imageWidth : Nat) : Int) ∧
      (getPOI poiZero calib1000 (some frameAll400) 3).distanceMM =
        processMeasuredData frameAll400 calib1000 0) :=
  ⟨by decide, by decide,
    claimC6_tie_first_in_scan_order poiZero frameAll400 calib1000 3 0 1
      (by decide) (by decide) (by decide) (by decide) rfl (by decide) (by decide)⟩

/-- C4 (amended): on a cycle with no new sensor frame,
`getPOITemporalFiltered` leaves the whole debounce state unchanged, but the
output POI is not the previous cycle's output: it is the freshly reset
record from `getPOI` (no new data, no detection, sentinel coordinates and
distance). -/
theorem claimC4_no_data_amended (s : DebounceState) (prev : pointOfInterest)
    (calibration : Nat → Int) (now : Int) :
    getPOITemporalFiltered s prev calibration none now = (s, initPOI prev) := rfl

def poiDetected3 : pointOfInterest :=
  { gotNewSensorData := true, hasDetection := true, x := 3, y := 3,
    distanceMM := 400, detectedAtMS := 10, calibrationDistMM := 1000,
    surroundingHits := 9 }

/-- Counterexample to C4 as stated: when the previous cycle's output was a
confirmed detection at (3,3), a no-new-data cycle does not return that
output unchanged — the returned POI has been reset to the no-detection
sentinels. -/
theorem claimC4_counterexample :
    (getPOITemporalFiltered initialDebounceState poiDetected3 calib1000 none 20).2
      ≠ poiDetected3 ∧
    (getPOITemporalFiltered initialDebounceState poiDetected3 calib1000 none 20).2.x
      = -255 := by
  refine ⟨by decide, by decide⟩

/-- C7: after a new-data cycle whose raw POI reports no detection, the
debounce filter is fully reset regardless of accumulated history: the next
detection cycle is suppressed, and the one after that (the second
consecutive detection) is reported. -/
theorem claimC7_loss_resets_debounce (s : DebounceState)
    (p1 p2 p3 : pointOfInterest)
    (h1n : p1.gotNewSensorData = true) (h1d : p1.hasDetection = false)
    (h2n : p2.gotNewSensorData = true) (h2d : p2.hasDetection = true)
    (h3n : p3.gotNewSensorData = true) (h3d : p3.hasDetection = true) :
    (debounceStep (debounceStep s p1).1 p2).2.hasDetection = false ∧
    (debounceStep (debounceStep (debounceStep s p1).1 p2).1 p3).2.hasDetection
      = true := by
  have e1 : (debounceStep s p1).1 = { s with waitingFirstDetection := true } := by
    simp [debounceStep, h1n, h1d]
  rw [e1]
  unfold debounceStep
  simp only [h2n, h2d, h3n, h3d]
  norm_num [FRAMES_FOR_GOOD_HIT]
  split_ifs <;> simp_all

def poiLoss : pointOfInterest :=
  { gotNewSensorData := true, hasDetection := false, x := -255, y := -255,
    distanceMM := 2001, detectedAtMS := -1, calibrationDistMM := -1,
    surroundingHits := 0 }

def debounceTracking5 : DebounceState :=
  { waitingFirstDetection := false, sequentialFramesWithHit := 5,
    currentX := 3, currentY := 3, suppressedX := -1, suppressedY := -1 }

/-- Witness for C7: even from a state with 5 accumulated hits, a loss frame
forces the next detection to be suppressed and the second to be reported. -/
theorem claimC7_witness :
    (poiLoss.gotNewSensorData = true ∧ poiLoss.hasDetection = false ∧
      poiDetected3.gotNewSensorData = true ∧ poiDetected3.hasDetection = true) ∧
    (debounceStep (debounceStep debounceTracking5 poiLoss).1 poiDetected3).2.hasDetection
      = false ∧
    (debounceStep (debounceStep (debounceStep debounceTracking5 poiLoss).1
        poiDetected3).1 poiDetected3).2.hasDetection = true := by
  have h := claimC7_loss_resets_debounce debounceTracking5 poiLoss poiDetected3
    poiDetected3 rfl rfl rfl rfl rfl rfl
  exact ⟨⟨rfl, rfl, rfl, rfl⟩, h.1, h.2⟩

def frameBlobTopLeft : RawFrame :=
  ⟨fun i => if i / 8 ≤ 2 ∧ i % 8 ≤ 2 then 400 else 1000, fun _ => 5⟩

def frameBlobCenter : RawFrame :=
  ⟨fun i => if 4 ≤ i / 8 ∧ i / 8 ≤ 6 ∧ 4 ≤ i % 8 ∧ i % 8 ≤ 6 then 400 else 1000,
    fun _ => 5⟩

def c3cycle1 : DebounceState × pointOfInterest :=
  getPOITemporalFiltered initialDebounceState poiZero calib1000
    (some frameBlobTopLeft) 0

def c3cycle2 : DebounceState × pointOfInterest :=
  getPOITemporalFiltered c3cycle1.1 c3cycle1.2 calib1000 (some frameBlobCenter) 1

set_option maxRecDepth 1000000 in
/-- C3 at the failing input: the first new-data cycle detects raw cell
(0,0) and is suppressed; the second detects raw cell (4,4) — outside any
cell tolerance of the tracked cell — yet the filter reports
`hasDetection = true` at (4,4) instead of re-anchoring with hit count 1,
because the source hardcodes the spatial distances to zero. -/
theorem claimC3_bug_eval :
    (getPOI poiZero calib1000 (some frameBlobTopLeft) 0).hasDetection = true ∧
    (getPOI poiZero calib1000 (some frameBlobTopLeft) 0).x = 0 ∧
    (getPOI poiZero calib1000 (some frameBlobTopLeft) 0).y = 0 ∧
    c3cycle1.2.hasDetection = false ∧
    (getPOI c3cycle1.2 calib1000 (some frameBlobCenter) 1).hasDetection = true ∧
    (getPOI c3cycle1.2 calib1000 (some frameBlobCenter) 1).x = 4 ∧
    (getPOI c3cycle1.2 calib1000 (some frameBlobCenter) 1).y = 4 ∧
    c3cycle2.2.hasDetection = true ∧
    c3cycle2.2.x = 4 ∧
    c3cycle2.2.y = 4 := by
  refine ⟨by decide, by decide, by decide, by decide, by decide, by decide,
    by decide, by decide, by decide, by decide⟩
